import Mathlib

/-!
Shallow embedding of `autoapprove.py`, a GitHub pull-request auto-approver.

The script shells out to the `gh` CLI: it searches for open PRs where the
current user is a requested reviewer (writing the JSON response to `prs.json`),
parses that file, and for each record whose title contains a fixed keyword
(case-insensitively) it runs an approve command and, on success, a merge
command.

Modelling choices:
* The external world is an oracle `World`: `rc n` / `stderr n` give the return
  code and decoded stderr of the `n`-th `run_command` invocation of the run
  (the search command is invocation 0), and `artifact` is the parse outcome of
  the `prs.json` file written by the search command (`none` models a
  `json.JSONDecodeError`; parsed JSON values are modelled by `PyVal`, with
  numbers restricted to integers — no claim involves numeric payloads).
* Each modelled function returns the list of observable `Event`s it produces
  (external command executions and log lines) together with the next
  invocation counter; fallible Python evaluation is explicit: an uncaught
  exception is an `Option PyErr` result, `none` meaning normal completion.
* Python `str.lower` is modelled by mapping `Char.toLower` over the
  characters, and the substring test of `in` by contiguous-sublist
  containment of the character lists.
-/

namespace Autoapprove

/-- A Python value as produced by `json.load` (numbers restricted to `Int`). -/
inductive PyVal where
  | pnull : PyVal
  | pbool : Bool → PyVal
  | pnum : Int → PyVal
  | pstr : String → PyVal
  | plist : List PyVal → PyVal
  | pdict : List (String × PyVal) → PyVal

/-- An uncaught Python exception. -/
inductive PyErr where
  | keyError : String → PyErr
  | typeError : String → PyErr
  | attributeError : String → PyErr
deriving DecidableEq

/-- Observable events of a run: external command executions and log lines. -/
inductive Event where
  | exec : String → Event
  | logInfo : String → Event
  | logError : String → Event
  | logWarning : String → Event
deriving DecidableEq

/-- The external world: return code and stderr of each `run_command`
invocation (indexed by invocation order, the search being invocation 0), the
parse outcome of `prs.json` (`none` = `JSONDecodeError`), and the decode-error
message used when parsing fails. -/
structure World where
  rc : Nat → Int
  stderr : Nat → String
  artifact : Option PyVal
  parseErr : String

/-- `KEYWORD = "YOURFAVOURITEKEYWORD"` (line 35). -/
def KEYWORD : String := "YOURFAVOURITEKEYWORD"

/-- `APPROVAL_MESSAGE = "lit"` (line 36). -/
def APPROVAL_MESSAGE : String := "lit"

/-- Python `str.lower`, modelled as per-character ASCII lowering. -/
def pyLowerS (s : String) : String := String.mk (s.data.map Char.toLower)

/-- Contiguous-sublist containment on character lists, the model of Python
substring membership `needle in hay`. -/
def strContains : List Char → List Char → Bool
  | needle, [] => needle.isEmpty
  | needle, c :: t => needle.isPrefixOf (c :: t) || strContains needle t

/-- Python `needle in hay` on strings. -/
def pyInStr (needle hay : String) : Bool := strContains needle.data hay.data

/-- The keyword test of line 65: `KEYWORD.lower() in pr_title.lower()`
(the source negates it to decide skipping). -/
def keywordMatch (title : String) : Bool :=
  pyInStr (pyLowerS KEYWORD) (pyLowerS title)

/-- Single straight quote character, used by the Python `repr` model. -/
def pyQuote : String := String.singleton (Char.ofNat 39)

mutual

/-- Python `repr` of a parsed-JSON value (used by `str` on containers). -/
def pyRepr : PyVal → String
  | .pnull => "None"
  | .pbool true => "True"
  | .pbool false => "False"
  | .pnum n => toString n
  | .pstr s => pyQuote ++ s ++ pyQuote
  | .plist xs => "[" ++ String.intercalate ", " (pyReprList xs) ++ "]"
  | .pdict kvs => "\x7b" ++ String.intercalate ", " (pyReprPairs kvs) ++ "\x7d"

/-- `repr` of each element of a list value. -/
def pyReprList : List PyVal → List String
  | [] => []
  | x :: r => pyRepr x :: pyReprList r

/-- `repr` of each key-value pair of a dict value. -/
def pyReprPairs : List (String × PyVal) → List String
  | [] => []
  | (k, v) :: r => (pyQuote ++ k ++ pyQuote ++ ": " ++ pyRepr v) :: pyReprPairs r

end

/-- Python `str`, as used by f-string interpolation. -/
def pyStr : PyVal → String
  | .pstr s => s
  | v => pyRepr v

/-- Python subscription `v[key]` with a string key, as in `pr['title']`. -/
def pyGetItem (v : PyVal) (key : String) : Except PyErr PyVal :=
  match v with
  | .pdict kvs =>
    match kvs.lookup key with
    | some x => .ok x
    | none => .error (.keyError key)
  | .plist _ => .error (.typeError "list indices must be integers or slices, not str")
  | .pstr _ => .error (.typeError "string indices must be integers")
  | _ => .error (.typeError "object is not subscriptable")

/-- Python `v.lower()`: succeeds exactly on strings. -/
def pyLowerOf (v : PyVal) : Except PyErr String :=
  match v with
  | .pstr s => .ok (pyLowerS s)
  | _ => .error (.attributeError "lower")

/-- Python truthiness, as used by `if not pull_requests`. -/
def pyFalsy : PyVal → Bool
  | .pnull => true
  | .pbool b => !b
  | .pnum n => n == 0
  | .pstr s => s.isEmpty
  | .plist xs => xs.isEmpty
  | .pdict kvs => kvs.isEmpty

/-- Python iteration `for pr in v`: lists yield elements, dicts their keys,
strings their characters; other values raise `TypeError`. -/
def pyIter : PyVal → Except PyErr (List PyVal)
  | .plist xs => .ok xs
  | .pdict kvs => .ok (kvs.map fun kv => PyVal.pstr kv.1)
  | .pstr s => .ok (s.data.map fun c => PyVal.pstr (String.singleton c))
  | .pnull => .error (.typeError "NoneType object is not iterable")
  | .pbool _ => .error (.typeError "bool object is not iterable")
  | .pnum _ => .error (.typeError "int object is not iterable")

/-- The search command string of line 46. -/
def search_command : String :=
  "gh search prs --state=open --review-requested=@me --json url,title -L 100 > prs.json"

/-- The approve command of line 70: `gh pr review {url} --approve -b "lit"`. -/
def approve_command (url : String) : String :=
  "gh pr review " ++ url ++ " --approve -b \"" ++ APPROVAL_MESSAGE ++ "\""

/-- The merge command of line 80:
`gh pr merge {url} --squash --auto --merge --delete-branch -A email`. -/
def merge_command (url : String) : String :=
  "gh pr merge " ++ url ++ " --squash --auto --merge --delete-branch -A email"

/-- `fetch_pull_requests` (lines 44-58): run the search command; on non-zero
return code log and return `[]`; otherwise parse `prs.json`, logging and
returning `[]` on a decode error. Returns the fetched value, the events, and
the next invocation counter. -/
def fetch_pull_requests (w : World) (k : Nat) : PyVal × List Event × Nat :=
  if w.rc k ≠ 0 then
    (PyVal.plist [],
     [Event.exec search_command,
      Event.logError ("Failed to search PRs: " ++ w.stderr k)],
     k + 1)
  else
    match w.artifact with
    | none =>
      (PyVal.plist [],
       [Event.exec search_command,
        Event.logError ("Failed to parse JSON: " ++ w.parseErr)],
       k + 1)
    | some v => (v, [Event.exec search_command], k + 1)

/-- `process_pull_request` (lines 60-86) on an arbitrary parsed value:
extract `title` and `url`, test the keyword, approve, and merge on approval
success. Returns the events, the next invocation counter, and the uncaught
exception if one is raised. -/
def process_pull_request (w : World) (k : Nat) (pr : PyVal) :
    List Event × Nat × Option PyErr :=
  match pyGetItem pr "title" with
  | .error e => ([], k, some e)
  | .ok titleV =>
    match pyGetItem pr "url" with
    | .error e => ([], k, some e)
    | .ok urlV =>
      match pyLowerOf titleV with
      | .error e => ([], k, some e)
      | .ok titleLower =>
        if pyInStr (pyLowerS KEYWORD) titleLower = false then
          ([Event.logInfo ("Skipping PR \"" ++ pyStr titleV ++ "\" - no keyword match")],
           k, none)
        else
          let url := pyStr urlV
          if w.rc k ≠ 0 then
            ([Event.exec (approve_command url),
              Event.logError ("Failed to approve PR " ++ url ++ ": " ++ w.stderr k)],
             k + 1, none)
          else
            ([Event.exec (approve_command url),
              Event.logInfo ("Successfully approved PR: " ++ url),
              Event.exec (merge_command url)] ++
             (if w.rc (k + 1) = 0 then
                [Event.logInfo ("Successfully merged PR: " ++ url)]
              else
                [Event.logError ("Failed to merge PR " ++ url ++ ": " ++ w.stderr (k + 1))]),
             k + 2, none)

/-- The `for pr in pull_requests` loop of lines 96-97: process each record in
order, stopping only if an uncaught exception is raised. -/
def processList (w : World) : List PyVal → Nat → List Event × Nat × Option PyErr
  | [], k => ([], k, none)
  | pr :: rest, k =>
    match process_pull_request w k pr with
    | (ev, k2, some e) => (ev, k2, some e)
    | (ev, k2, none) =>
      match processList w rest k2 with
      | (ev2, k3, out) => (ev ++ ev2, k3, out)

/-- `main` (lines 88-97): fetch, warn-and-return on a falsy result, otherwise
iterate. Returns the events of the whole run and the uncaught exception if
one is raised. -/
def main (w : World) : List Event × Option PyErr :=
  match fetch_pull_requests w 0 with
  | (prs, ev0, k) =>
    if pyFalsy prs then
      (ev0 ++ [Event.logWarning "No pull requests found"], none)
    else
      match pyIter prs with
      | .error e => (ev0, some e)
      | .ok items =>
        match processList w items k with
        | (ev, _, out) => (ev0 ++ ev, out)

/-- A well-formed pull-request record `{title: t, url: u}` as the spec's
`PullRequestRecord` (the `gh` client emits the keys in the order requested,
`url` then `title`; key order is irrelevant to lookup). -/
def mkRecord (t u : String) : PyVal :=
  PyVal.pdict [("url", PyVal.pstr u), ("title", PyVal.pstr t)]

/-- The command strings of the `exec` events of a trace, in order. -/
def execCmds : List Event → List String
  | [] => []
  | Event.exec c :: r => c :: execCmds r
  | Event.logInfo _ :: r => execCmds r
  | Event.logError _ :: r => execCmds r
  | Event.logWarning _ :: r => execCmds r

/- ### Helper lemmas -/

theorem strContains_iff (n : List Char) : ∀ h : List Char,
    strContains n h = true ↔ n <:+: h := by
  intro h
  induction h with
  | nil =>
    simp [strContains, List.isEmpty_iff]
  | cons c t ih =>
    simp [strContains, List.infix_cons_iff, ih, List.isPrefixOf_iff_prefix]

theorem data_pyLowerS (s : String) : (pyLowerS s).data = s.data.map Char.toLower := rfl

theorem merge_data_6 (u : String) :
    ((merge_command u).data)[6]? = some (Char.ofNat 109) := by
  rw [merge_command, String.data_append, String.data_append]
  rw [List.getElem?_append_left (by
    rw [List.length_append]
    have h12 : ("gh pr merge " : String).data.length = 12 := by decide
    omega)]
  rw [List.getElem?_append_left (by decide)]
  decide

theorem approve_data_6 (v : String) :
    ((approve_command v).data)[6]? = some (Char.ofNat 114) := by
  rw [approve_command, String.data_append, String.data_append, String.data_append,
    String.data_append]
  rw [List.getElem?_append_left (by
    rw [List.length_append, List.length_append, List.length_append]
    have h13 : ("gh pr review " : String).data.length = 13 := by decide
    omega)]
  rw [List.getElem?_append_left (by
    rw [List.length_append, List.length_append]
    have h13 : ("gh pr review " : String).data.length = 13 := by decide
    omega)]
  rw [List.getElem?_append_left (by
    rw [List.length_append]
    have h13 : ("gh pr review " : String).data.length = 13 := by decide
    omega)]
  rw [List.getElem?_append_left (by decide)]
  decide

/-- The merge and approve command strings differ, whatever URLs they carry
(they differ already at character index 6). -/
theorem merge_ne_approve (u v : String) : merge_command u ≠ approve_command v := by
  intro h
  have h6 : ((merge_command u).data)[6]? = ((approve_command v).data)[6]? := by rw [h]
  rw [merge_data_6, approve_data_6] at h6
  simp at h6

theorem pyGetItem_mkRecord_title (t u : String) :
    pyGetItem (mkRecord t u) "title" = Except.ok (PyVal.pstr t) := rfl

theorem pyGetItem_mkRecord_url (t u : String) :
    pyGetItem (mkRecord t u) "url" = Except.ok (PyVal.pstr u) := rfl

theorem keywordMatch_eq (t : String) :
    pyInStr (pyLowerS KEYWORD) (pyLowerS t) = keywordMatch t := rfl

/-- A non-matching record produces only the skip log line. -/
theorem process_record_skip (w : World) (k : Nat) (t u : String)
    (hm : keywordMatch t = false) :
    process_pull_request w k (mkRecord t u) =
      ([Event.logInfo ("Skipping PR \"" ++ t ++ "\" - no keyword match")], k, none) := by
  simp [process_pull_request, pyGetItem_mkRecord_title, pyGetItem_mkRecord_url,
    pyLowerOf, pyStr, keywordMatch_eq, hm]

/-- A matching record whose approve command fails produces the approve
execution and an error log, and nothing else. -/
theorem process_record_approve_fail (w : World) (k : Nat) (t u : String)
    (hm : keywordMatch t = true) (hrc : w.rc k ≠ 0) :
    process_pull_request w k (mkRecord t u) =
      ([Event.exec (approve_command u),
        Event.logError ("Failed to approve PR " ++ u ++ ": " ++ w.stderr k)],
       k + 1, none) := by
  simp [process_pull_request, pyGetItem_mkRecord_title, pyGetItem_mkRecord_url,
    pyLowerOf, pyStr, keywordMatch_eq, hm, hrc]

/-- A matching record whose approve command succeeds executes the approve and
then the merge command, logging the merge outcome either way. -/
theorem process_record_approved (w : World) (k : Nat) (t u : String)
    (hm : keywordMatch t = true) (h0 : w.rc k = 0) :
    process_pull_request w k (mkRecord t u) =
      ([Event.exec (approve_command u),
        Event.logInfo ("Successfully approved PR: " ++ u),
        Event.exec (merge_command u)] ++
       (if w.rc (k + 1) = 0 then
          [Event.logInfo ("Successfully merged PR: " ++ u)]
        else
          [Event.logError ("Failed to merge PR " ++ u ++ ": " ++ w.stderr (k + 1))]),
       k + 2, none) := by
  simp [process_pull_request, pyGetItem_mkRecord_title, pyGetItem_mkRecord_url,
    pyLowerOf, pyStr, keywordMatch_eq, hm, h0]

/-- A well-formed record never raises an uncaught exception. -/
theorem process_mkRecord_crash_none (w : World) (k : Nat) (t u : String) :
    (process_pull_request w k (mkRecord t u)).2.2 = none := by
  by_cases hm : keywordMatch t = true
  · by_cases h0 : w.rc k = 0
    · rw [process_record_approved w k t u hm h0]
    · rw [process_record_approve_fail w k t u hm h0]
  · rw [process_record_skip w k t u (by simpa using hm)]

/-- The loop decomposes at a record that completes without an uncaught
exception: the rest of the batch is still processed. -/
theorem processList_cons (w : World) (pr : PyVal) (rest : List PyVal) (k : Nat)
    (h : (process_pull_request w k pr).2.2 = none) :
    processList w (pr :: rest) k =
      ((process_pull_request w k pr).1 ++
        (processList w rest (process_pull_request w k pr).2.1).1,
       (processList w rest (process_pull_request w k pr).2.1).2) := by
  rw [processList]
  rcases hp : process_pull_request w k pr with ⟨ev, k2, out⟩
  rw [hp] at h
  simp only at h
  subst h
  rcases hq : processList w rest k2 with ⟨ev2, k3, out2⟩
  simp [hq]

/-- A batch of well-formed records is processed to the end without an
uncaught exception. -/
theorem processList_records_crash_none (w : World) (rs : List (String × String)) :
    ∀ k : Nat, (processList w (rs.map fun r => mkRecord r.1 r.2) k).2.2 = none := by
  induction rs with
  | nil => intro k; rfl
  | cons hd tl ih =>
    intro k
    rw [List.map_cons, processList_cons w _ _ k (process_mkRecord_crash_none w k hd.1 hd.2)]
    exact ih _

theorem execCmds_append (a b : List Event) :
    execCmds (a ++ b) = execCmds a ++ execCmds b := by
  induction a with
  | nil => rfl
  | cons e r ih => cases e <;> simp [execCmds, ih]

/-- The fetch step executes exactly the search command. -/
theorem fetch_execCmds (w : World) (k : Nat) :
    execCmds (fetch_pull_requests w k).2.1 = [search_command] := by
  by_cases h : w.rc k ≠ 0
  · simp [fetch_pull_requests, h, execCmds]
  · rcases ha : w.artifact with _ | v <;> simp [fetch_pull_requests, h, ha, execCmds]

/-- When the fetched value is falsy the run only warns and stops. -/
theorem main_of_falsy (w : World) (h : pyFalsy (fetch_pull_requests w 0).1 = true) :
    main w =
      ((fetch_pull_requests w 0).2.1 ++ [Event.logWarning "No pull requests found"],
       none) := by
  rw [main]
  rcases hf : fetch_pull_requests w 0 with ⟨prs, ev0, k⟩
  rw [hf] at h
  simp only at h
  simp [h]

end Autoapprove

namespace Autoapprove

/-- Claim C1: for every title `T`, the keyword test used by
`process_pull_request` is true iff the case-lowered keyword is a contiguous
substring of the case-lowered title; the test accepts the keyword at any
position, whatever text surrounds it; and it is exactly the condition under
which `process_pull_request` executes any command for a record titled `T`. -/
theorem keyword_match_spec (T : String) :
    (keywordMatch T = true ↔
      (pyLowerS KEYWORD).data <:+: (pyLowerS T).data)
    ∧ (∀ pre post : String, keywordMatch (pre ++ KEYWORD ++ post) = true)
    ∧ ∀ (w : World) (k : Nat) (u : String),
        execCmds (process_pull_request w k (mkRecord T u)).1 ≠ [] ↔
          keywordMatch T = true := by
  refine ⟨strContains_iff _ _, ?_, ?_⟩
  · intro pre post
    rw [keywordMatch, pyInStr, strContains_iff]
    rw [data_pyLowerS, data_pyLowerS]
    rw [String.data_append, String.data_append, List.map_append, List.map_append]
    exact ⟨pre.data.map Char.toLower, post.data.map Char.toLower, by simp⟩
  · intro w k u
    by_cases hm : keywordMatch T = true
    · by_cases h0 : w.rc k = 0
      · rw [process_record_approved w k T u hm h0]
        by_cases h1 : w.rc (k + 1) = 0 <;> simp [h1, execCmds, hm]
      · rw [process_record_approve_fail w k T u hm h0]
        simp [execCmds, hm]
    · have hm2 : keywordMatch T = false := by simpa using hm
      rw [process_record_skip w k T u hm2]
      simp [execCmds, hm2]

/-- Claim C2: when the title matches and the approve invocation returns a
non-zero code, the record's trace is exactly the approve execution plus an
error log, and no merge command is ever executed for it. -/
theorem approve_failure_blocks_merge (w : World) (k : Nat) (t u : String)
    (hm : keywordMatch t = true) (hrc : w.rc k ≠ 0) :
    (process_pull_request w k (mkRecord t u)).1 =
      [Event.exec (approve_command u),
       Event.logError ("Failed to approve PR " ++ u ++ ": " ++ w.stderr k)]
    ∧ ∀ v : String,
        Event.exec (merge_command v) ∉ (process_pull_request w k (mkRecord t u)).1 := by
  have h := process_record_approve_fail w k t u hm hrc
  refine ⟨by rw [h], ?_⟩
  intro v hv
  rw [h] at hv
  simp only [List.mem_cons, List.mem_singleton, List.not_mem_nil, or_false] at hv
  rcases hv with hv | hv
  · exact merge_ne_approve v u (by injection hv)
  · exact Event.noConfusion hv

/-- Witness for C2 at a concrete matching record and a failing approve. -/
theorem approve_failure_blocks_merge_witness :
    keywordMatch "Add YOURFAVOURITEKEYWORD support" = true
    ∧ (World.mk (fun _ => 1) (fun _ => "boom") none "").rc 0 ≠ 0
    ∧ Event.exec (merge_command "u2") ∉
        (process_pull_request (World.mk (fun _ => 1) (fun _ => "boom") none "") 0
          (mkRecord "Add YOURFAVOURITEKEYWORD support" "u2")).1 :=
  ⟨by decide, by decide,
    (approve_failure_blocks_merge (World.mk (fun _ => 1) (fun _ => "boom") none "") 0
      "Add YOURFAVOURITEKEYWORD support" "u2" (by decide) (by decide)).2 "u2"⟩

/-- Claim C4: when the title matches and the approve invocation succeeds,
the record's executed commands are exactly the approve followed by the merge
command — one merge invocation, whatever the merge return code is. -/
theorem approved_merges_once (w : World) (k : Nat) (t u : String)
    (hm : keywordMatch t = true) (h0 : w.rc k = 0) :
    execCmds (process_pull_request w k (mkRecord t u)).1 =
      [approve_command u, merge_command u]
    ∧ (execCmds (process_pull_request w k (mkRecord t u)).1).count (merge_command u)
        = 1 := by
  have h := process_record_approved w k t u hm h0
  have hc : execCmds (process_pull_request w k (mkRecord t u)).1 =
      [approve_command u, merge_command u] := by
    rw [h]
    by_cases h1 : w.rc (k + 1) = 0 <;> simp [h1, execCmds]
  refine ⟨hc, ?_⟩
  rw [hc]
  have hne : approve_command u ≠ merge_command u := fun he => merge_ne_approve u u he.symm
  simp [List.count_cons, hne]

/-- Witness for C4 at a concrete matching record with approve succeeding and
merge failing. -/
theorem approved_merges_once_witness :
    keywordMatch "Add YOURFAVOURITEKEYWORD support" = true
    ∧ (World.mk (fun n => if n = 0 then 0 else 1) (fun _ => "no merge") none "").rc 0 = 0
    ∧ execCmds
        (process_pull_request
          (World.mk (fun n => if n = 0 then 0 else 1) (fun _ => "no merge") none "") 0
          (mkRecord "Add YOURFAVOURITEKEYWORD support" "u2")).1 =
        [approve_command "u2", merge_command "u2"] :=
  ⟨by decide, by decide,
    (approved_merges_once
      (World.mk (fun n => if n = 0 then 0 else 1) (fun _ => "no merge") none "") 0
      "Add YOURFAVOURITEKEYWORD support" "u2" (by decide) (by decide)).1⟩

/-- Claim C5: a non-matching record triggers no approve and no merge, logs a
skip notice naming the title, and the loop goes on to the remaining
records. -/
theorem no_match_skips (w : World) (k : Nat) (t u : String) (rest : List PyVal)
    (hm : keywordMatch t = false) :
    process_pull_request w k (mkRecord t u) =
      ([Event.logInfo ("Skipping PR \"" ++ t ++ "\" - no keyword match")], k, none)
    ∧ execCmds (process_pull_request w k (mkRecord t u)).1 = []
    ∧ (processList w (mkRecord t u :: rest) k).1 =
        Event.logInfo ("Skipping PR \"" ++ t ++ "\" - no keyword match")
          :: (processList w rest k).1 := by
  have h := process_record_skip w k t u hm
  refine ⟨h, by rw [h]; rfl, ?_⟩
  rw [processList_cons w _ rest k (by rw [h])]
  rw [h]
  simp

/-- Witness for C5 at a concrete non-matching record. -/
theorem no_match_skips_witness :
    keywordMatch "Fix bug" = false
    ∧ (process_pull_request (World.mk (fun _ => 0) (fun _ => "") none "") 0
        (mkRecord "Fix bug" "u1")).1 =
      [Event.logInfo "Skipping PR \"Fix bug\" - no keyword match"]
    ∧ execCmds
        (process_pull_request (World.mk (fun _ => 0) (fun _ => "") none "") 0
          (mkRecord "Fix bug" "u1")).1 = [] :=
  ⟨by decide,
    by
      rw [(no_match_skips (World.mk (fun _ => 0) (fun _ => "") none "") 0
        "Fix bug" "u1" [] (by decide)).1]
      rfl,
    (no_match_skips (World.mk (fun _ => 0) (fun _ => "") none "") 0
      "Fix bug" "u1" [] (by decide)).2.1⟩

/-- Claim C3: when the search command fails, the artifact is unparsable, or
the artifact is the empty list, the fetch returns the empty list after
logging, and the whole run executes only the search command — no approve or
merge invocation — and terminates normally. -/
theorem empty_or_unparsable_no_actions (w : World)
    (h : w.rc 0 ≠ 0 ∨ w.artifact = none ∨ w.artifact = some (PyVal.plist [])) :
    ((w.rc 0 ≠ 0 ∨ w.artifact = none) → (fetch_pull_requests w 0).1 = PyVal.plist [])
    ∧ execCmds (main w).1 = [search_command]
    ∧ (main w).2 = none := by
  have hfalsy : pyFalsy (fetch_pull_requests w 0).1 = true := by
    rcases h with h | h | h
    · simp [fetch_pull_requests, h, pyFalsy]
    · by_cases hrc : w.rc 0 ≠ 0 <;> simp [fetch_pull_requests, hrc, h, pyFalsy]
    · by_cases hrc : w.rc 0 ≠ 0 <;> simp [fetch_pull_requests, hrc, h, pyFalsy]
  refine ⟨?_, ?_, ?_⟩
  · rintro (h2 | h2)
    · simp [fetch_pull_requests, h2]
    · by_cases hrc : w.rc 0 ≠ 0 <;> simp [fetch_pull_requests, hrc, h2]
  · rw [main_of_falsy w hfalsy]
    rw [execCmds_append, fetch_execCmds]
    rfl
  · rw [main_of_falsy w hfalsy]

/-- Witness for C3 at a failing search command. -/
theorem empty_or_unparsable_no_actions_witness :
    (World.mk (fun _ => 1) (fun _ => "err") none "msg").rc 0 ≠ 0
    ∧ execCmds (main (World.mk (fun _ => 1) (fun _ => "err") none "msg")).1 =
        [search_command]
    ∧ (main (World.mk (fun _ => 1) (fun _ => "err") none "msg")).2 = none :=
  ⟨by decide,
    (empty_or_unparsable_no_actions _ (Or.inl (by decide))).2.1,
    (empty_or_unparsable_no_actions _ (Or.inl (by decide))).2.2⟩

/-- Claim C6: a well-formed record never raises an uncaught exception, so
whatever its approve and merge return codes are, the loop still processes the
remaining records: the batch trace decomposes into this record's trace
followed by the rest of the batch, whose outcome is unchanged. -/
theorem record_failure_isolated (w : World) (k : Nat) (t u : String)
    (rest : List PyVal) :
    (process_pull_request w k (mkRecord t u)).2.2 = none
    ∧ (processList w (mkRecord t u :: rest) k).1 =
        (process_pull_request w k (mkRecord t u)).1 ++
          (processList w rest (process_pull_request w k (mkRecord t u)).2.1).1
    ∧ (processList w (mkRecord t u :: rest) k).2 =
        (processList w rest (process_pull_request w k (mkRecord t u)).2.1).2 := by
  have h := processList_cons w (mkRecord t u) rest k (process_mkRecord_crash_none w k t u)
  exact ⟨process_mkRecord_crash_none w k t u, by rw [h], by rw [h]⟩

/-- Counterexample to C7 as stated: the well-formed JSON artifact `[{}]`
(a list holding one empty object) makes the run abort with an uncaught
`KeyError`, since only `json.JSONDecodeError` is caught. -/
theorem malformed_artifact_aborts :
    (main (World.mk (fun _ => 0) (fun _ => "")
        (some (PyVal.plist [PyVal.pdict []])) "")).2 =
      some (PyErr.keyError "title") := by
  decide

/-- The run over a non-empty fetched list is the search execution followed by
the loop, and aborts exactly when the loop does. -/
theorem main_of_list (w : World) (l : List PyVal) (hrc : w.rc 0 = 0)
    (h : w.artifact = some (PyVal.plist l)) (hne : l ≠ []) :
    main w = ([Event.exec search_command] ++ (processList w l 1).1,
      (processList w l 1).2.2) := by
  have hf : fetch_pull_requests w 0 = (PyVal.plist l, [Event.exec search_command], 1) := by
    simp [fetch_pull_requests, hrc, h]
  have hfalse : pyFalsy (PyVal.plist l) = false := by
    cases l with
    | nil => exact absurd rfl hne
    | cons a as => rfl
  rw [main, hf]
  simp only [hfalse, Bool.false_eq_true, if_false, pyIter]

/-- Claim C7 (amended): for every combination of external-command return
codes, when the artifact is unparsable or parses to a list of well-formed
records, every failure is locally recovered and the run terminates normally
(no uncaught exception). -/
theorem run_terminates_on_wellformed (w : World)
    (h : w.artifact = none ∨
      ∃ rs : List (String × String),
        w.artifact = some (PyVal.plist (rs.map fun r => mkRecord r.1 r.2))) :
    (main w).2 = none := by
  by_cases hrc : w.rc 0 = 0
  · rcases h with h | ⟨rs, h⟩
    · rw [main_of_falsy w (by simp [fetch_pull_requests, hrc, h, pyFalsy])]
    · rcases rs with _ | ⟨r0, rtl⟩
      · rw [main_of_falsy w (by simp [fetch_pull_requests, hrc, h, pyFalsy])]
      · rw [main_of_list w ((r0 :: rtl).map fun r => mkRecord r.1 r.2) hrc h (by simp)]
        exact processList_records_crash_none w (r0 :: rtl) 1
  · rw [main_of_falsy w (by simp [fetch_pull_requests, hrc, pyFalsy])]

/-- Witness for C7 (amended) at a one-record artifact with all commands
succeeding. -/
theorem run_terminates_on_wellformed_witness :
    (main (World.mk (fun _ => 0) (fun _ => "")
        (some (PyVal.plist [mkRecord "Add YOURFAVOURITEKEYWORD support" "u2"])) "")).2 =
      none :=
  run_terminates_on_wellformed _
    (Or.inr ⟨[("Add YOURFAVOURITEKEYWORD support", "u2")], rfl⟩)

/-- Claim C8: the issued search request carries the fixed `-L 100` cap, the
fetch executes exactly that request, and provided the external client honours
the cap (its response holds at most 100 records) the fetched sequence has at
most 100 records; a successfully parsed list is returned verbatim, in the
client's order. -/
theorem fetch_capped (w : World) (k : Nat)
    (hcap : ∀ l, w.artifact = some (PyVal.plist l) → l.length ≤ 100) :
    ("-L 100" : String).data <:+: search_command.data
    ∧ execCmds (fetch_pull_requests w k).2.1 = [search_command]
    ∧ (∀ l, (fetch_pull_requests w k).1 = PyVal.plist l → l.length ≤ 100)
    ∧ (∀ l, w.rc k = 0 → w.artifact = some (PyVal.plist l) →
        (fetch_pull_requests w k).1 = PyVal.plist l) := by
  refine ⟨(strContains_iff _ _).mp (by decide), fetch_execCmds w k, ?_, ?_⟩
  · intro l hl
    by_cases hrc : w.rc k ≠ 0
    · simp [fetch_pull_requests, hrc] at hl
      subst hl
      decide
    · rcases ha : w.artifact with _ | v
      · simp [fetch_pull_requests, hrc, ha] at hl
        subst hl
        decide
      · simp [fetch_pull_requests, hrc, ha] at hl
        exact hcap l (by rw [ha, hl])
  · intro l hrc ha
    simp [fetch_pull_requests, hrc, ha]

/-- Witness for C8 at a one-record artifact returned verbatim. -/
theorem fetch_capped_witness :
    ("-L 100" : String).data <:+: search_command.data
    ∧ (fetch_pull_requests (World.mk (fun _ => 0) (fun _ => "")
        (some (PyVal.plist [mkRecord "t" "u"])) "") 0).1 =
      PyVal.plist [mkRecord "t" "u"] :=
  ⟨(fetch_capped (World.mk (fun _ => 0) (fun _ => "")
      (some (PyVal.plist [mkRecord "t" "u"])) "") 0
      (by
        rintro l hl
        simp only [Option.some.injEq, PyVal.plist.injEq] at hl
        rw [← hl]
        decide)).1,
    (fetch_capped (World.mk (fun _ => 0) (fun _ => "")
      (some (PyVal.plist [mkRecord "t" "u"])) "") 0
      (by
        rintro l hl
        simp only [Option.some.injEq, PyVal.plist.injEq] at hl
        rw [← hl]
        decide)).2.2.2 [mkRecord "t" "u"] rfl rfl⟩

theorem infix_merge_command (u : String) (n : List Char)
    (h : n <:+: (" --squash --auto --merge --delete-branch -A email" : String).data) :
    n <:+: (merge_command u).data := by
  rw [merge_command, String.data_append, String.data_append]
  exact h.trans (List.suffix_append _ _).isInfix

/-- Claim C9: a record that reaches the merge step issues exactly one merge
invocation, whose single command line simultaneously carries the squash
strategy, the auto-merge flag, the delete-source-branch flag and the approver
attribution field. -/
theorem merge_request_shape (w : World) (k : Nat) (t u : String)
    (hm : keywordMatch t = true) (h0 : w.rc k = 0) :
    execCmds (process_pull_request w k (mkRecord t u)).1 =
      [approve_command u, merge_command u]
    ∧ ("--squash" : String).data <:+: (merge_command u).data
    ∧ ("--auto" : String).data <:+: (merge_command u).data
    ∧ ("--delete-branch" : String).data <:+: (merge_command u).data
    ∧ ("-A email" : String).data <:+: (merge_command u).data := by
  refine ⟨?_, ?_, ?_, ?_, ?_⟩
  · rw [process_record_approved w k t u hm h0]
    by_cases h1 : w.rc (k + 1) = 0 <;> simp [h1, execCmds]
  · exact infix_merge_command u _ ((strContains_iff _ _).mp (by decide))
  · exact infix_merge_command u _ ((strContains_iff _ _).mp (by decide))
  · exact infix_merge_command u _ ((strContains_iff _ _).mp (by decide))
  · exact infix_merge_command u _ ((strContains_iff _ _).mp (by decide))

/-- Witness for C9 at a concrete matching record reaching the merge step. -/
theorem merge_request_shape_witness :
    keywordMatch "yourfavouritekeyword ok" = true
    ∧ ("--squash" : String).data <:+: (merge_command "u9").data :=
  ⟨by decide,
    (merge_request_shape (World.mk (fun _ => 0) (fun _ => "") none "") 0
      "yourfavouritekeyword ok" "u9" (by decide) rfl).2.1⟩

/-- Claim C10: for two matching records with the same url, the executed
command strings are identical — the title never flows into any executed
command. -/
theorem title_not_in_commands (w : World) (k : Nat) (u t1 t2 : String)
    (h1 : keywordMatch t1 = true) (h2 : keywordMatch t2 = true) :
    execCmds (process_pull_request w k (mkRecord t1 u)).1 =
      execCmds (process_pull_request w k (mkRecord t2 u)).1 := by
  by_cases h0 : w.rc k = 0
  · rw [process_record_approved w k t1 u h1 h0, process_record_approved w k t2 u h2 h0]
  · rw [process_record_approve_fail w k t1 u h1 h0,
      process_record_approve_fail w k t2 u h2 h0]

/-- Witness for C10 at two different matching titles over the same url. -/
theorem title_not_in_commands_witness :
    keywordMatch "YOURFAVOURITEKEYWORD alpha" = true
    ∧ keywordMatch "beta yourfavouritekeyword" = true
    ∧ execCmds (process_pull_request (World.mk (fun _ => 0) (fun _ => "") none "") 0
        (mkRecord "YOURFAVOURITEKEYWORD alpha" "u7")).1 =
      execCmds (process_pull_request (World.mk (fun _ => 0) (fun _ => "") none "") 0
        (mkRecord "beta yourfavouritekeyword" "u7")).1 :=
  ⟨by decide, by decide,
    title_not_in_commands (World.mk (fun _ => 0) (fun _ => "") none "") 0 "u7"
      "YOURFAVOURITEKEYWORD alpha" "beta yourfavouritekeyword" (by decide) (by decide)⟩

end Autoapprove
